import Mathlib

/-!
Shallow embedding of the request-admission middleware
(`pkg/server/middleware`, file `security.go`) and the health-monitoring
layer (`pkg/server`, file `health.go`) of the slack-mcp-server
repository, together with proofs settling the frozen claims C1..C10.

Conventions of the embedding:
* Wall-clock instants are rationals (seconds).  Durations that Go stores
  as `time.Duration` (an int64 count of nanoseconds) are integers
  counting nanoseconds, so that `time.Minute / time.Duration(rpm)`
  keeps Go's integer-division behaviour.
* An HTTP response is modelled by its header map, its written status
  line and its body chunks.  `net/http` ignores a second call to
  `WriteHeader`, so writing a status is first-write-wins.
* The host runtime serves each request on its own goroutine; the claims
  under verification are all about sequential observable behaviour, so
  the middleware is embedded as a state-passing function and the
  double-checked locking of `getRateLimiter` collapses to an ordinary
  lookup-or-insert on the registry.
-/

namespace SlackMCP

/-- Header maps (requests and responses alike): ordered list of
key/value pairs, as written.  `net/http` canonicalises keys; every key
appearing in the embedded code is already in canonical form. -/
abbrev Headers := List (String × String)

/-- `Header.Get`: first value stored for the key, `""` when absent. -/
def headerGet (hs : Headers) (k : String) : String :=
  match hs.find? (fun p => p.1 = k) with
  | some p => p.2
  | none => ""

/-- `Header.Set`: replace every value stored for the key by the single
new value. -/
def headerSet (hs : Headers) (k v : String) : Headers :=
  hs.filter (fun p => ¬ (p.1 = k)) ++ [(k, v)]

/-- Presence-aware lookup used by the theorems: `some v` when the key
is present with first value `v`, `none` when the header was never set. -/
def headerLookup (hs : Headers) (k : String) : Option String :=
  (hs.find? (fun p => p.1 = k)).map (fun p => p.2)

/-- An inbound HTTP request, restricted to the fields the middleware
reads: method, header map, transport-layer source address, URL path. -/
structure Request where
  method : String
  headers : Headers
  remoteAddr : String
  path : String
deriving DecidableEq

/-- An HTTP response under construction: header map, the status written
by the first `WriteHeader` call (`none` while unwritten), body chunks. -/
structure Response where
  headers : Headers
  status : Option Nat
  body : List String
deriving DecidableEq

/-- `Header().Set` on a response writer. -/
def Response.setHeader (w : Response) (k v : String) : Response :=
  { w with headers := headerSet w.headers k v }

/-- `WriteHeader`: the first call fixes the status; `net/http` ignores
(and merely logs) a superfluous second call. -/
def Response.writeHeader (w : Response) (code : Nat) : Response :=
  if w.status.isSome then w else { w with status := some code }

/-- `Write`: append a body chunk. -/
def Response.write (w : Response) (s : String) : Response :=
  { w with body := w.body ++ [s] }

/-- A response writer as handed to a handler: nothing set yet. -/
def freshResponse : Response :=
  { headers := [], status := none, body := [] }

/-- One nanosecond short-hands: `time.Duration` counts nanoseconds. -/
def nsPerSecond : Int := 1000000000

/-- `time.Minute` as a `time.Duration` (nanoseconds). -/
def timeMinute : Int := 60000000000

/-- `Duration.Seconds()` of a nanosecond count, as an exact rational. -/
def durationSeconds (d : Int) : ℚ := (d : ℚ) / 1000000000

/-- `Duration.Minutes()` of a nanosecond count, as an exact rational. -/
def durationMinutes (d : Int) : ℚ := (d : ℚ) / 60000000000

/-- Decimal value of a digit character, `none` otherwise. -/
def digitVal (c : Char) : Option Nat :=
  if c.isDigit then some (c.toNat - 48) else none

/-- Left-to-right decimal accumulation over a digit string; `none` as
soon as a non-digit appears. -/
def digitsAux : Option Nat → List Char → Option Nat
  | acc, [] => acc
  | acc, c :: rest =>
    match acc, digitVal c with
    | some a, some d => digitsAux (some (a * 10 + d)) rest
    | _, _ => none

/-- Decimal value of a non-empty digit string. -/
def digitsToNat (ds : List Char) : Option Nat :=
  match ds with
  | [] => none
  | _ => digitsAux (some 0) ds

/-- Models `strconv.Atoi`: optional sign followed by one or more
digits, `none` on malformed input.  (Go additionally errors on 64-bit
overflow; the configuration values of interest are far below that
bound.) -/
def atoi (s : String) : Option Int :=
  match s.toList with
  | '+' :: ds => (digitsToNat ds).map (fun n => (n : Int))
  | '-' :: ds => (digitsToNat ds).map (fun n => -(n : Int))
  | ds => (digitsToNat ds).map (fun n => (n : Int))

/-- `parseRateLimit` (security.go): reads the configured rate limit as
requests per minute and converts it to the `time.Duration` between two
requests; empty, malformed, zero or negative values all fall back to
`time.Minute` (one request per minute). -/
def parseRateLimit (value : String) : Int :=
  if value = "" then timeMinute
  else
    match atoi value with
    | none => timeMinute
    | some requestsPerMinute =>
        if requestsPerMinute ≤ 0 then timeMinute
        else timeMinute / requestsPerMinute

/-- A `golang.org/x/time/rate.Limiter`: token bucket with rate `limit`
tokens per second, capacity `burst`, current `tokens`, and the instant
`last` of the latest state change.  `rate.NewLimiter` leaves `tokens`
at 0 with `last` the zero time, which the first `advance` turns into a
full bucket (for any positive rate and positive wall clock); the
embedding therefore creates buckets full at their creation instant,
which is observationally identical. -/
structure Limiter where
  limit : ℚ
  burst : Nat
  tokens : ℚ
  last : ℚ
deriving DecidableEq

/-- `Limiter.Allow()` at instant `now`: advance the bucket by the
elapsed time (capping at capacity, and treating a clock that ran
backwards as zero elapsed time, as `advance` does), then admit and
consume one token when at least one is available; on refusal the
limiter state is left unchanged (Go restores `last` and never stores
the decremented token count). -/
def Limiter.allow (l : Limiter) (now : ℚ) : Bool × Limiter :=
  let last := if now < l.last then now else l.last
  let tokens := min (l.burst : ℚ) (l.tokens + (now - last) * l.limit)
  if 1 ≤ tokens then (true, { l with tokens := tokens - 1, last := now })
  else (false, l)

/-- `SecurityConfig` (security.go), minus the logger: CORS allow-list,
security-headers toggle, interval between admitted requests
(`time.Duration` in nanoseconds; `0` disables rate limiting). -/
structure SecurityConfig where
  CORSOrigins : List String
  EnableSecurityHeaders : Bool
  RateLimit : Int
deriving DecidableEq

/-- `SecurityMiddleware`: configuration plus the per-client-identity
limiter registry (a Go map, embedded as an association list with
distinct keys). -/
structure SecurityMiddleware where
  config : SecurityConfig
  rateLimiters : List (String × Limiter)
deriving DecidableEq

/-- Map lookup in the limiter registry. -/
def lookupLimiter : List (String × Limiter) → String → Option Limiter
  | [], _ => none
  | (k, v) :: rest, ip => if k = ip then some v else lookupLimiter rest ip

/-- Map store for a key already present (the in-place mutation a
`*rate.Limiter` pointer performs inside `Allow`). -/
def storeLimiter : List (String × Limiter) → String → Limiter → List (String × Limiter)
  | [], _, _ => []
  | (k, v) :: rest, ip, l =>
      if k = ip then (k, l) :: rest else (k, v) :: storeLimiter rest ip l

/-- Index of the last colon of a character list, if any. -/
def lastColon : List Char → Option Nat
  | [] => none
  | c :: rest =>
    match lastColon rest with
    | some i => some (i + 1)
    | none => if c = ':' then some 0 else none

/-- Models `net.SplitHostPort`: split `host:port` at the last colon,
accepting a bracketed IPv6 host `[h]:port`; a colon inside an
unbracketed host, a missing colon, or malformed brackets are errors
(`none`). -/
def splitHostPort (s : String) : Option (String × String) :=
  let cs := s.toList
  match lastColon cs with
  | none => none
  | some i =>
    if cs.headD ' ' = '[' then
      if 2 ≤ i ∧ cs.getD (i - 1) ' ' = ']' then
        some (String.mk ((cs.drop 1).take (i - 2)), String.mk (cs.drop (i + 1)))
      else none
    else
      if (cs.take i).contains ':' then none
      else some (String.mk (cs.take i), String.mk (cs.drop (i + 1)))

/-- `getClientIP` (security.go): first address of the
`X-Forwarded-For` chain, else the `X-Real-IP` header, else the
transport source address with the port stripped when one parses. -/
def getClientIP (r : Request) : String :=
  let xff := headerGet r.headers "X-Forwarded-For"
  if xff ≠ "" then ((xff.splitOn ",").headD "").trim
  else
    let xri := headerGet r.headers "X-Real-IP"
    if xri ≠ "" then xri
    else
      let ip := r.remoteAddr
      if ip.contains ':' then
        match splitHostPort ip with
        | some hp => hp.1
        | none => ip
      else ip

/-- `getRateLimiter` (security.go): look the client identity up in the
registry; on a miss create a limiter at `rps = 1.0 / RateLimit.Seconds()`
tokens per second with burst 1 and insert it.  (Sequential rendering of
the double-checked read-lock/write-lock creation; see the file
comment.) -/
def getRateLimiter (sm : SecurityMiddleware) (ip : String) (now : ℚ) :
    Limiter × SecurityMiddleware :=
  match lookupLimiter sm.rateLimiters ip with
  | some limiter => (limiter, sm)
  | none =>
      let rps : ℚ := 1 / durationSeconds sm.config.RateLimit
      let limiter : Limiter := { limit := rps, burst := 1, tokens := 1, last := now }
      (limiter, { sm with rateLimiters := sm.rateLimiters ++ [(ip, limiter)] })

/-- Renders a float with `%.0f` (no fraction digits) for the rationals
this code ever formats. -/
def formatFloat0 (q : ℚ) : String := toString (round q)

/-- The body layout of `writeErrorResponse` (a Go raw string literal
filled by `fmt.Sprintf`); `ts` stands for the RFC3339 rendering of the
wall clock. -/
def errorResponseJSON (errorCode message details ts path : String) : String :=
  "\x7b\n  \"error\": \x7b\n    \"code\": \"" ++ errorCode ++
    "\",\n    \"message\": \"" ++ message ++
    "\",\n    \"details\": \"" ++ details ++
    "\"\n  \x7d,\n  \"timestamp\": \"" ++ ts ++
    "\",\n  \"path\": \"" ++ path ++ "\"\n\x7d"

/-- `writeErrorResponse` (security.go): JSON content type, status line,
standardised error body. -/
def writeErrorResponse (w : Response) (r : Request) (statusCode : Nat)
    (errorCode message details ts : String) : Response :=
  ((w.setHeader "Content-Type" "application/json").writeHeader statusCode).write
    (errorResponseJSON errorCode message details ts r.path)

/-- `checkRateLimit` (security.go): admit everything when rate limiting
is disabled (`RateLimit == 0`); otherwise run `Allow` on the client
identity's bucket and, on refusal, emit the 429 error response.  `ts`
is the RFC3339 wall-clock text embedded in the error body. -/
def checkRateLimit (sm : SecurityMiddleware) (r : Request) (now : ℚ)
    (w : Response) (ts : String) : Bool × SecurityMiddleware × Response :=
  if sm.config.RateLimit = 0 then (true, sm, w)
  else
    let clientIP := getClientIP r
    let p := getRateLimiter sm clientIP now
    let q := p.1.allow now
    let sm₂ := { p.2 with rateLimiters := storeLimiter p.2.rateLimiters clientIP q.2 }
    if q.1 then (true, sm₂, w)
    else
      (false, sm₂,
        writeErrorResponse w r 429 "RATE_LIMIT_EXCEEDED"
          "Too many requests from this client"
          ("Rate limit of " ++
            formatFloat0 (60 / durationMinutes sm.config.RateLimit) ++
            " requests per minute exceeded") ts)

/-- The allow-list scan of `applyCORS`: does some entry equal the
wildcard token or the request's Origin verbatim?  (The Go loop sets the
header at the first such entry and breaks; the value set does not
depend on which entry matched.) -/
def corsOriginAllowed : List String → String → Bool
  | [], _ => false
  | a :: rest, origin =>
      if a = "*" ∨ a = origin then true else corsOriginAllowed rest origin

/-- `applyCORS` (security.go): empty allow-list ⇒ wildcard Allow-Origin;
else echo the Origin value when some entry matches, set nothing when
none does; the four remaining CORS headers are set unconditionally. -/
def applyCORS (cfg : SecurityConfig) (w : Response) (r : Request) : Response :=
  let origin := headerGet r.headers "Origin"
  let w :=
    if cfg.CORSOrigins = [] then
      w.setHeader "Access-Control-Allow-Origin" "*"
    else
      if corsOriginAllowed cfg.CORSOrigins origin then
        w.setHeader "Access-Control-Allow-Origin" origin
      else w
  let w := w.setHeader "Access-Control-Allow-Methods" "GET, POST, PUT, DELETE, OPTIONS"
  let w := w.setHeader "Access-Control-Allow-Headers" "Content-Type, Authorization, X-Requested-With"
  let w := w.setHeader "Access-Control-Allow-Credentials" "true"
  w.setHeader "Access-Control-Max-Age" "86400"

/-- `applySecurityHeaders` (security.go): the five fixed defensive
headers. -/
def applySecurityHeaders (w : Response) : Response :=
  ((((w.setHeader "X-Content-Type-Options" "nosniff").setHeader
      "X-Frame-Options" "DENY").setHeader
      "X-XSS-Protection" "1; mode=block").setHeader
      "Referrer-Policy" "strict-origin-when-cross-origin").setHeader
      "Content-Security-Policy"
      "default-src \x27self\x27; script-src \x27self\x27; style-src \x27self\x27 \x27unsafe-inline\x27"

/-- `Handler` (security.go): rate limit, CORS, optional security
headers, preflight short-circuit, downstream handler.  Returns the
response, whether the downstream handler `next` was invoked, and the
middleware state after the request. -/
def Handler (sm : SecurityMiddleware) (next : Request → Response → Response)
    (r : Request) (now : ℚ) (ts : String) :
    Response × Bool × SecurityMiddleware :=
  match checkRateLimit sm r now freshResponse ts with
  | (false, sm₁, w₁) => (w₁, false, sm₁)
  | (true, sm₁, w₁) =>
    let w₂ := applyCORS sm₁.config w₁ r
    let w₃ := if sm₁.config.EnableSecurityHeaders then applySecurityHeaders w₂ else w₂
    if r.method = "OPTIONS" then (w₃.writeHeader 200, false, sm₁)
    else (next r w₃, true, sm₁)

/-- A downstream handler that answers 200 with no further headers (the
stand-in the spec's scenarios use for the protected route). -/
def okNext : Request → Response → Response := fun _ w => w.writeHeader 200

/-! ### Health-monitoring layer (`pkg/server/health.go`) -/

/-- `HealthStatus`: overall status of a health document. -/
inductive HealthStatus where
  | healthy
  | unhealthy
deriving DecidableEq

/-- `CheckStatus`: status of one individual check. -/
inductive CheckStatus where
  | ok
  | error
deriving DecidableEq

/-- `pkg/version.Version` (a build-time constant outside the embedded
files); its value is irrelevant to every claim. -/
def versionVersion : String := "1.1.24"

/-- `HealthResponse`: the health document.  `checks` and `details` are
Go maps embedded as association lists with distinct keys; `uptime` is a
`*time.Duration` (`none` = nil pointer, dropped by `omitempty`),
embedded in seconds. -/
structure HealthResponse where
  status : HealthStatus
  timestamp : ℚ
  version : String
  checks : List (String × CheckStatus)
  uptime : Option ℚ
  details : List (String × String)
deriving DecidableEq

/-- `pkg/provider.ApiProvider` through the four observations the health
checker makes of it: the pair returned by `IsReady()` (readiness flag,
error non-nil), whether `Slack()` is nil, and whether
`AuthTestContext` returns an error (which includes a context deadline
expiry). -/
structure ApiProvider where
  ready : Bool
  isReadyErr : Bool
  slackIsNil : Bool
  authTestErr : Bool
deriving DecidableEq

/-- `HealthChecker`, minus the logger: the provider reference (`none` =
nil pointer) and the construction instant. -/
structure HealthChecker where
  provider : Option ApiProvider
  startTime : ℚ
deriving DecidableEq

/-- The environment variables `checkSlackAPI` reads (empty string =
unset). -/
structure Env where
  xoxpToken : String
  xoxcToken : String
  xoxdToken : String
deriving DecidableEq

/-- `checkCacheSystem` (health.go): nil provider is an error; otherwise
an `IsReady` error or a false readiness flag is an error. -/
def checkCacheSystem (h : HealthChecker) : CheckStatus :=
  match h.provider with
  | none => CheckStatus.error
  | some p =>
      if p.isReadyErr ∨ ¬ p.ready then CheckStatus.error else CheckStatus.ok

/-- `checkSlackAPI` (health.go): nil provider or nil Slack client is an
error; demo-mode tokens skip the probe and report ok; otherwise the
lightweight `AuthTestContext` round-trip decides. -/
def checkSlackAPI (h : HealthChecker) (env : Env) : CheckStatus :=
  match h.provider with
  | none => CheckStatus.error
  | some p =>
      if p.slackIsNil then CheckStatus.error
      else
        if env.xoxpToken = "demo" ∨ (env.xoxcToken = "demo" ∧ env.xoxdToken = "demo") then
          CheckStatus.ok
        else if p.authTestErr then CheckStatus.error
        else CheckStatus.ok

/-- `performHealthChecks` (health.go): run the cache check always and
the Slack API check only for readiness, downgrading the overall status
on each error and recording a detail line for it; the uptime pointer is
set unconditionally. -/
def performHealthChecks (h : HealthChecker) (env : Env)
    (includeReadiness : Bool) (now : ℚ) : HealthResponse :=
  let cacheStatus := checkCacheSystem h
  let checks := [("cache", cacheStatus)]
  let overallStatus :=
    if cacheStatus = CheckStatus.error then HealthStatus.unhealthy
    else HealthStatus.healthy
  let details :=
    if cacheStatus = CheckStatus.error then [("cache", "Cache system not ready")]
    else []
  let slackStatus := checkSlackAPI h env
  let checks :=
    if includeReadiness then checks ++ [("slack_api", slackStatus)] else checks
  let overallStatus :=
    if includeReadiness ∧ slackStatus = CheckStatus.error then HealthStatus.unhealthy
    else overallStatus
  let details :=
    if includeReadiness ∧ slackStatus = CheckStatus.error then
      details ++ [("slack_api", "Slack API connectivity failed")]
    else details
  { status := overallStatus
    timestamp := now
    version := versionVersion
    checks := checks
    uptime := some (now - h.startTime)
    details := details }

/-- The document `LivenessHandler` (health.go) builds: healthy, the
single synthetic "application" check, current uptime, no provider or
network interaction. -/
def livenessResponse (h : HealthChecker) (now : ℚ) : HealthResponse :=
  { status := HealthStatus.healthy
    timestamp := now
    version := versionVersion
    checks := [("application", CheckStatus.ok)]
    uptime := some (now - h.startTime)
    details := [] }

/-- `http.Error` from `net/http`: plain-text content type, status,
message plus newline.  (The header mutations land in the header map but
a status line already written stays as it is: `Response.writeHeader`
ignores superfluous calls.) -/
def httpError (w : Response) (msg : String) (code : Nat) : Response :=
  (((w.setHeader "Content-Type" "text/plain; charset=utf-8").setHeader
      "X-Content-Type-Options" "nosniff").writeHeader code).write (msg ++ "\n")

/-- `writeHealthResponse` (health.go): JSON content type, 503 for an
unhealthy document and 200 otherwise, then the encoded document.
`encoded` is the outcome of `json.NewEncoder(w).Encode(response)`,
passed in as an oracle (`none` = the encoder returned an error), since
the claims quantify over both outcomes of serialization. -/
def writeHealthResponse (resp : HealthResponse) (encoded : Option String)
    (w : Response) : Response :=
  let w := w.setHeader "Content-Type" "application/json"
  let w :=
    if resp.status = HealthStatus.unhealthy then w.writeHeader 503
    else w.writeHeader 200
  match encoded with
  | some s => w.write s
  | none => httpError w "Internal server error" 500

/-- `LivenessHandler` (health.go): build the liveness document and
render it. -/
def LivenessHandler (h : HealthChecker) (now : ℚ) (encoded : Option String)
    (w : Response) : Response :=
  writeHealthResponse (livenessResponse h now) encoded w

/-- `HealthHandler` (health.go): basic health document (no readiness
probe) rendered under a 10s deadline. -/
def HealthHandler (h : HealthChecker) (env : Env) (now : ℚ)
    (encoded : Option String) (w : Response) : Response :=
  writeHealthResponse (performHealthChecks h env false now) encoded w

/-- `ReadinessHandler` (health.go): readiness document (cache plus
Slack API probe) rendered under a 15s deadline. -/
def ReadinessHandler (h : HealthChecker) (env : Env) (now : ℚ)
    (encoded : Option String) (w : Response) : Response :=
  writeHealthResponse (performHealthChecks h env true now) encoded w

/-- `checkRateLimit` run repeatedly, threading the middleware state:
the list of admission verdicts and the final state. -/
def runChecks (sm : SecurityMiddleware) (ts : String) :
    List (Request × ℚ) → List Bool × SecurityMiddleware
  | [] => ([], sm)
  | (r, now) :: rest =>
    let a := checkRateLimit sm r now freshResponse ts
    let b := runChecks a.2.1 ts rest
    (a.1 :: b.1, b.2)

/-! ### Helper lemmas -/

theorem status_setHeader (w : Response) (k v : String) :
    (w.setHeader k v).status = w.status := rfl

theorem headers_writeHeader (w : Response) (c : Nat) :
    (w.writeHeader c).headers = w.headers := by
  unfold Response.writeHeader
  split <;> rfl

theorem status_write (w : Response) (s : String) :
    (w.write s).status = w.status := rfl

theorem headers_write (w : Response) (s : String) :
    (w.write s).headers = w.headers := rfl

theorem headerLookup_headerSet_self (hs : Headers) (k v : String) :
    headerLookup (headerSet hs k v) k = some v := by
  simp [headerLookup, headerSet, List.find?]

theorem headerLookup_headerSet_ne (hs : Headers) (k v k₂ : String) (h : k₂ ≠ k) :
    headerLookup (headerSet hs k v) k₂ = headerLookup hs k₂ := by
  induction hs with
  | nil => simp [headerLookup, headerSet, List.find?, Ne.symm h]
  | cons p rest ih =>
    by_cases hp : p.1 = k
    · have hp₂ : ¬ p.1 = k₂ := by
        rw [hp]; exact Ne.symm h
      have hk : ¬ (k = k₂) := Ne.symm h
      simp [headerLookup, headerSet, List.find?, hp, hp₂, hk] at ih ⊢
      exact ih
    · by_cases hq : p.1 = k₂
      · simp [headerLookup, headerSet, List.find?, hp, hq, h]
      · simp [headerLookup, headerSet, List.find?, hp, hq] at ih ⊢
        exact ih

theorem lookup_setHeader_self (w : Response) (k v : String) :
    headerLookup (w.setHeader k v).headers k = some v :=
  headerLookup_headerSet_self w.headers k v

theorem lookup_setHeader_ne (w : Response) (k v k₂ : String) (h : k₂ ≠ k) :
    headerLookup (w.setHeader k v).headers k₂ = headerLookup w.headers k₂ :=
  headerLookup_headerSet_ne w.headers k v k₂ h

theorem status_applyCORS (cfg : SecurityConfig) (w : Response) (r : Request) :
    (applyCORS cfg w r).status = w.status := by
  by_cases h1 : cfg.CORSOrigins = []
  · simp [applyCORS, h1, Response.setHeader]
  · by_cases h2 : corsOriginAllowed cfg.CORSOrigins (headerGet r.headers "Origin") = true
    · simp [applyCORS, h1, h2, Response.setHeader]
    · simp [applyCORS, h1, h2, Response.setHeader]

theorem status_applySecurityHeaders (w : Response) :
    (applySecurityHeaders w).status = w.status := rfl

theorem corsOriginAllowed_iff (l : List String) (origin : String) :
    corsOriginAllowed l origin = true ↔ ∃ a ∈ l, a = "*" ∨ a = origin := by
  induction l with
  | nil => simp [corsOriginAllowed]
  | cons a rest ih =>
    by_cases h : a = "*" ∨ a = origin
    · simp [corsOriginAllowed, h]
    · simp [corsOriginAllowed, h, ih]

theorem getRateLimiter_config (sm : SecurityMiddleware) (ip : String) (now : ℚ) :
    (getRateLimiter sm ip now).2.config = sm.config := by
  unfold getRateLimiter
  split <;> rfl

theorem checkRateLimit_config (sm : SecurityMiddleware) (r : Request)
    (now : ℚ) (w : Response) (ts : String) :
    (checkRateLimit sm r now w ts).2.1.config = sm.config := by
  by_cases h0 : sm.config.RateLimit = 0
  · simp [checkRateLimit, h0]
  · by_cases hc : ((getRateLimiter sm (getClientIP r) now).1.allow now).1 = true
    · simp [checkRateLimit, h0, hc, getRateLimiter_config]
    · simp [checkRateLimit, h0, hc, getRateLimiter_config]

theorem checkRateLimit_true_resp (sm : SecurityMiddleware) (r : Request)
    (now : ℚ) (w : Response) (ts : String)
    (h : (checkRateLimit sm r now w ts).1 = true) :
    (checkRateLimit sm r now w ts).2.2 = w := by
  by_cases h0 : sm.config.RateLimit = 0
  · simp [checkRateLimit, h0]
  · by_cases hc : ((getRateLimiter sm (getClientIP r) now).1.allow now).1 = true
    · simp [checkRateLimit, h0, hc]
    · exfalso
      simp [checkRateLimit, h0, hc] at h

theorem checkRateLimit_false_status (sm : SecurityMiddleware) (r : Request)
    (now : ℚ) (ts : String)
    (h : (checkRateLimit sm r now freshResponse ts).1 = false) :
    (checkRateLimit sm r now freshResponse ts).2.2.status = some 429 := by
  by_cases h0 : sm.config.RateLimit = 0
  · exfalso
    simp [checkRateLimit, h0] at h
  · by_cases hc : ((getRateLimiter sm (getClientIP r) now).1.allow now).1 = true
    · exfalso
      simp [checkRateLimit, h0, hc] at h
    · simp [checkRateLimit, h0, hc, writeErrorResponse, Response.write,
        Response.writeHeader, Response.setHeader, freshResponse]

theorem status_secHeadersIf (b : Bool) (w : Response) :
    (if b = true then applySecurityHeaders w else w).status = w.status := by
  cases b <;> simp [status_applySecurityHeaders]

theorem allow_fresh_now (lim t : ℚ) :
    Limiter.allow { limit := lim, burst := 1, tokens := 1, last := t } t =
      (true, { limit := lim, burst := 1, tokens := 0, last := t }) := by
  simp [Limiter.allow]

theorem allow_spent_now (lim t : ℚ) :
    Limiter.allow { limit := lim, burst := 1, tokens := 0, last := t } t =
      (false, { limit := lim, burst := 1, tokens := 0, last := t }) := by
  simp [Limiter.allow]

theorem checkRateLimit_fresh_then_throttle
    (sm : SecurityMiddleware) (r : Request) (now : ℚ) (ts : String)
    (hz : ¬ sm.config.RateLimit = 0) (hfresh : sm.rateLimiters = []) :
    (checkRateLimit sm r now freshResponse ts).1 = true ∧
    (checkRateLimit sm r now freshResponse ts).2.1 =
      { config := sm.config
        rateLimiters :=
          [(getClientIP r,
            { limit := (durationSeconds sm.config.RateLimit)⁻¹, burst := 1,
              tokens := 0, last := now })] } ∧
    (checkRateLimit (checkRateLimit sm r now freshResponse ts).2.1
        r now freshResponse ts).1 = false := by
  have e : checkRateLimit sm r now freshResponse ts =
      (true,
       { config := sm.config
         rateLimiters :=
           [(getClientIP r,
             { limit := (durationSeconds sm.config.RateLimit)⁻¹, burst := 1,
               tokens := 0, last := now })] },
       freshResponse) := by
    simp [checkRateLimit, hz, getRateLimiter, hfresh, lookupLimiter,
      allow_fresh_now, storeLimiter]
  refine ⟨by rw [e], by rw [e], ?_⟩
  rw [e]
  simp [checkRateLimit, hz, getRateLimiter, lookupLimiter, allow_spent_now,
    storeLimiter]

theorem checkRateLimit_spent_false
    (sm : SecurityMiddleware) (r : Request) (now : ℚ) (ts : String) (lim : ℚ)
    (hz : ¬ sm.config.RateLimit = 0)
    (hreg : sm.rateLimiters =
      [(getClientIP r, { limit := lim, burst := 1, tokens := 0, last := now })]) :
    (checkRateLimit sm r now freshResponse ts).1 = false := by
  simp [checkRateLimit, hz, getRateLimiter, hreg, lookupLimiter, allow_spent_now]

theorem Handler_first_state
    (sm : SecurityMiddleware) (next : Request → Response → Response)
    (r : Request) (now : ℚ) (ts : String)
    (hz : ¬ sm.config.RateLimit = 0) (hfresh : sm.rateLimiters = []) :
    (Handler sm next r now ts).2.2 =
      { config := sm.config
        rateLimiters :=
          [(getClientIP r,
            { limit := (durationSeconds sm.config.RateLimit)⁻¹, burst := 1,
              tokens := 0, last := now })] } := by
  have e : checkRateLimit sm r now freshResponse ts =
      (true,
       { config := sm.config
         rateLimiters :=
           [(getClientIP r,
             { limit := (durationSeconds sm.config.RateLimit)⁻¹, burst := 1,
               tokens := 0, last := now })] },
       freshResponse) := by
    simp [checkRateLimit, hz, getRateLimiter, hfresh, lookupLimiter,
      allow_fresh_now, storeLimiter]
  by_cases hm : r.method = "OPTIONS" <;> simp [Handler, e, hm]

theorem Handler_throttled
    (sm : SecurityMiddleware) (next : Request → Response → Response)
    (r : Request) (now : ℚ) (ts : String)
    (hf : (checkRateLimit sm r now freshResponse ts).1 = false) :
    (Handler sm next r now ts).1.status = some 429 ∧
    (Handler sm next r now ts).2.1 = false := by
  rcases hE : checkRateLimit sm r now freshResponse ts with ⟨b, smx, wx⟩
  cases b with
  | true => rw [hE] at hf; simp at hf
  | false =>
    have hst := checkRateLimit_false_status sm r now ts (by rw [hE])
    rw [hE] at hst
    constructor
    · simpa [Handler, hE] using hst
    · simp [Handler, hE]

theorem durationSeconds_one_second : durationSeconds 1000000000 = 1 := by
  norm_num [durationSeconds]

theorem status_freshResponse : freshResponse.status = none := rfl

/-! ### Concrete fixtures for the witnesses -/

/-- A plain request from client identity 10.0.0.1. -/
def reqA : Request :=
  { method := "GET", headers := [("X-Real-IP", "10.0.0.1")], remoteAddr := "", path := "/mcp" }

/-- A plain request from the distinct client identity 10.0.0.2. -/
def reqB : Request :=
  { method := "GET", headers := [("X-Real-IP", "10.0.0.2")], remoteAddr := "", path := "/mcp" }

/-- A preflight request from client identity 10.0.0.1. -/
def reqOptA : Request :=
  { method := "OPTIONS", headers := [("X-Real-IP", "10.0.0.1")], remoteAddr := "", path := "/mcp" }

/-- Middleware configured at RPM 60 (`parseRateLimit "60"` = one
second between requests), empty registry. -/
def smRPM60 : SecurityMiddleware :=
  { config := { CORSOrigins := [], EnableSecurityHeaders := true, RateLimit := 1000000000 }
    rateLimiters := [] }

/-! ### Claims -/

/-- C1: with rate limiting configured at RPM=60, the first request
through the middleware Handler is admitted (downstream handler
invoked, status 200), an immediately following second request from the
same client identity is throttled with status 429, and a request from
a different identity at the same instant is admitted; each identity
has its own token bucket of capacity 1 with a token consumed per
admitted call. -/
theorem C1_burst_of_one_per_identity
    (sm : SecurityMiddleware) (r₁ r₂ r₃ : Request) (now : ℚ) (ts : String)
    (hrl : sm.config.RateLimit = 1000000000)
    (hfresh : sm.rateLimiters = [])
    (hm₁ : r₁.method ≠ "OPTIONS") (hm₃ : r₃.method ≠ "OPTIONS")
    (hsame : getClientIP r₂ = getClientIP r₁)
    (hdiff : getClientIP r₃ ≠ getClientIP r₁) :
    (Handler sm okNext r₁ now ts).1.status = some 200 ∧
    (Handler sm okNext r₁ now ts).2.1 = true ∧
    lookupLimiter (Handler sm okNext r₁ now ts).2.2.rateLimiters (getClientIP r₁) =
      some { limit := 1, burst := 1, tokens := 0, last := now } ∧
    (Handler (Handler sm okNext r₁ now ts).2.2 okNext r₂ now ts).1.status = some 429 ∧
    (Handler (Handler sm okNext r₁ now ts).2.2 okNext r₂ now ts).2.1 = false ∧
    (Handler (Handler (Handler sm okNext r₁ now ts).2.2 okNext r₂ now ts).2.2
        okNext r₃ now ts).1.status = some 200 ∧
    (Handler (Handler (Handler sm okNext r₁ now ts).2.2 okNext r₂ now ts).2.2
        okNext r₃ now ts).2.1 = true := by
  have hz : ¬ sm.config.RateLimit = 0 := by
    rw [hrl]; decide
  have e₁ : checkRateLimit sm r₁ now freshResponse ts =
      (true,
       { config := sm.config
         rateLimiters :=
           [(getClientIP r₁, { limit := 1, burst := 1, tokens := 0, last := now })] },
       freshResponse) := by
    simp [checkRateLimit, hz, getRateLimiter, hfresh, lookupLimiter, hrl,
      durationSeconds_one_second, allow_fresh_now, storeLimiter]
  have c₁ : (Handler sm okNext r₁ now ts).1.status = some 200 := by
    cases hb : sm.config.EnableSecurityHeaders <;>
      simp [Handler, e₁, hm₁, okNext, Response.writeHeader, hb,
        status_applySecurityHeaders, status_applyCORS, status_freshResponse]
  have c₂ : (Handler sm okNext r₁ now ts).2.1 = true := by
    simp [Handler, e₁, hm₁]
  have c₃ : (Handler sm okNext r₁ now ts).2.2 =
      { config := sm.config
        rateLimiters :=
          [(getClientIP r₁, { limit := 1, burst := 1, tokens := 0, last := now })] } := by
    simp [Handler, e₁, hm₁]
  set smA : SecurityMiddleware :=
    { config := sm.config
      rateLimiters :=
        [(getClientIP r₁, { limit := 1, burst := 1, tokens := 0, last := now })] }
    with hsmA
  have f₂ : (checkRateLimit smA r₂ now freshResponse ts).1 = false := by
    simp [checkRateLimit, hsmA, hz, getRateLimiter, lookupLimiter, hsame,
      allow_spent_now, storeLimiter]
  have s₂ : (checkRateLimit smA r₂ now freshResponse ts).2.1 = smA := by
    simp [checkRateLimit, hsmA, hz, getRateLimiter, lookupLimiter, hsame,
      allow_spent_now, storeLimiter]
  have c₄ : (Handler smA okNext r₂ now ts).1.status = some 429 := by
    rcases hE : checkRateLimit smA r₂ now freshResponse ts with ⟨b, smx, wx⟩
    cases b with
    | true => rw [hE] at f₂; simp at f₂
    | false =>
      have hst := checkRateLimit_false_status smA r₂ now ts (by rw [hE])
      rw [hE] at hst
      simpa [Handler, hE] using hst
  have c₅ : (Handler smA okNext r₂ now ts).2.1 = false := by
    rcases hE : checkRateLimit smA r₂ now freshResponse ts with ⟨b, smx, wx⟩
    cases b with
    | true => rw [hE] at f₂; simp at f₂
    | false => simp [Handler, hE]
  have s₂' : (Handler smA okNext r₂ now ts).2.2 = smA := by
    rcases hE : checkRateLimit smA r₂ now freshResponse ts with ⟨b, smx, wx⟩
    rw [hE] at s₂
    cases b with
    | true => rw [hE] at f₂; simp at f₂
    | false => simpa [Handler, hE] using s₂
  have hdiff' : ¬ (getClientIP r₁ = getClientIP r₃) := fun hh => hdiff hh.symm
  have e₃ : checkRateLimit smA r₃ now freshResponse ts =
      (true,
       { config := sm.config
         rateLimiters :=
           [(getClientIP r₁, { limit := 1, burst := 1, tokens := 0, last := now }),
            (getClientIP r₃, { limit := 1, burst := 1, tokens := 0, last := now })] },
       freshResponse) := by
    simp [checkRateLimit, hsmA, hz, getRateLimiter, lookupLimiter, hdiff', hrl,
      durationSeconds_one_second, allow_fresh_now, storeLimiter, hdiff]
  have c₆ : (Handler smA okNext r₃ now ts).1.status = some 200 := by
    cases hb : sm.config.EnableSecurityHeaders <;>
      simp [Handler, e₃, hm₃, okNext, Response.writeHeader, hb,
        status_applySecurityHeaders, status_applyCORS, status_freshResponse]
  have c₇ : (Handler smA okNext r₃ now ts).2.1 = true := by
    simp [Handler, e₃, hm₃]
  refine ⟨c₁, c₂, ?_, ?_, ?_, ?_, ?_⟩
  · rw [c₃]
    simp [lookupLimiter]
  · rw [c₃]
    exact c₄
  · rw [c₃]
    exact c₅
  · rw [c₃, s₂']
    exact c₆
  · rw [c₃, s₂']
    exact c₇


/-- Witness for C1 at concrete inputs: identity 10.0.0.1 twice, then
10.0.0.2, all at instant 5. -/
theorem C1_burst_of_one_per_identity_witness :
    (Handler smRPM60 okNext reqA 5 "ts").1.status = some 200 ∧
    (Handler smRPM60 okNext reqA 5 "ts").2.1 = true ∧
    lookupLimiter (Handler smRPM60 okNext reqA 5 "ts").2.2.rateLimiters (getClientIP reqA) =
      some { limit := 1, burst := 1, tokens := 0, last := 5 } ∧
    (Handler (Handler smRPM60 okNext reqA 5 "ts").2.2 okNext reqA 5 "ts").1.status = some 429 ∧
    (Handler (Handler smRPM60 okNext reqA 5 "ts").2.2 okNext reqA 5 "ts").2.1 = false ∧
    (Handler (Handler (Handler smRPM60 okNext reqA 5 "ts").2.2 okNext reqA 5 "ts").2.2
        okNext reqB 5 "ts").1.status = some 200 ∧
    (Handler (Handler (Handler smRPM60 okNext reqA 5 "ts").2.2 okNext reqA 5 "ts").2.2
        okNext reqB 5 "ts").2.1 = true :=
  C1_burst_of_one_per_identity smRPM60 reqA reqA reqB 5 "ts" rfl rfl
    (by decide) (by decide) rfl (by decide)

/-- Middleware whose internal `RateLimit` duration is 0: limiting
disabled. -/
def smDisabled : SecurityMiddleware :=
  { config := { CORSOrigins := [], EnableSecurityHeaders := true, RateLimit := 0 }
    rateLimiters := [] }

/-- Middleware configured from the environment value "0". -/
def smFromZero : SecurityMiddleware :=
  { config := { CORSOrigins := [], EnableSecurityHeaders := true, RateLimit := parseRateLimit "0" }
    rateLimiters := [] }

/-- C2 (counterexample): the environment value "0" is NOT normalized to
disabled: `parseRateLimit "0"` is `time.Minute`, not 0, so the check
creates a bucket and throttles the second immediate call from the same
identity. -/
theorem C2_env_zero_counterexample :
    parseRateLimit "0" = timeMinute ∧
    parseRateLimit "0" ≠ 0 ∧
    (checkRateLimit smFromZero reqA 5 freshResponse "ts").1 = true ∧
    (checkRateLimit smFromZero reqA 5 freshResponse "ts").2.1.rateLimiters ≠ [] ∧
    (checkRateLimit (checkRateLimit smFromZero reqA 5 freshResponse "ts").2.1
        reqA 5 freshResponse "ts").1 = false := by
  have hz : ¬ smFromZero.config.RateLimit = 0 := by decide
  have h := checkRateLimit_fresh_then_throttle smFromZero reqA 5 "ts" hz rfl
  refine ⟨by decide, by decide, h.1, ?_, h.2.2⟩
  rw [h.2.1]
  decide

/-- C2 (amended): zero or negative parsed rate-limit values (the
environment value "0" included) are normalized to the default
`time.Minute` — one request per minute, limiting still enabled — not to
disabled; only the internal `RateLimit` duration 0 disables limiting,
in which case the check admits every call, arbitrarily many times in a
row, without creating any bucket; no division error arises in either
case (the divisor is only ever a positive integer). -/
theorem C2_zero_rpm_normalized :
    (∀ (s : String) (n : Int), atoi s = some n → n ≤ 0 → parseRateLimit s = timeMinute) ∧
    (∀ (sm : SecurityMiddleware) (r : Request) (now : ℚ) (w : Response) (ts : String),
        sm.config.RateLimit = 0 → checkRateLimit sm r now w ts = (true, sm, w)) ∧
    (∀ (sm : SecurityMiddleware) (ts : String) (reqs : List (Request × ℚ)),
        sm.config.RateLimit = 0 →
        (runChecks sm ts reqs).1 = reqs.map (fun _ => true) ∧
        (runChecks sm ts reqs).2 = sm) := by
  refine ⟨?_, ?_, ?_⟩
  · intro s n hs hn
    by_cases hse : s = "" <;> simp [parseRateLimit, hse, hs, hn]
  · intro sm r now w ts h
    simp [checkRateLimit, h]
  · intro sm ts reqs h
    induction reqs with
    | nil => simp [runChecks]
    | cons p rest ih =>
      obtain ⟨r, t⟩ := p
      simp only [runChecks, checkRateLimit, h, if_true, List.map_cons]
      exact ⟨by rw [ih.1], ih.2⟩

/-- Witness for C2's amended theorem: the value "-7" normalizes to
`time.Minute`; the disabled middleware admits three consecutive calls
from the same identity and keeps an empty registry. -/
theorem C2_zero_rpm_normalized_witness :
    parseRateLimit "-7" = timeMinute ∧
    checkRateLimit smDisabled reqA 5 freshResponse "ts" = (true, smDisabled, freshResponse) ∧
    (runChecks smDisabled "ts" [(reqA, 5), (reqA, 5), (reqA, 5)]).1 = [true, true, true] ∧
    (runChecks smDisabled "ts" [(reqA, 5), (reqA, 5), (reqA, 5)]).2 = smDisabled := by
  refine ⟨C2_zero_rpm_normalized.1 "-7" (-7) (by decide) (by decide),
    C2_zero_rpm_normalized.2.1 smDisabled reqA 5 freshResponse "ts" rfl, ?_, ?_⟩
  · have h := (C2_zero_rpm_normalized.2.2 smDisabled "ts" [(reqA, 5), (reqA, 5), (reqA, 5)] rfl).1
    simpa using h
  · exact (C2_zero_rpm_normalized.2.2 smDisabled "ts" [(reqA, 5), (reqA, 5), (reqA, 5)] rfl).2


/-- Allow-list configuration with two specific origins; rate limiting
disabled so the CORS behaviour can be observed in isolation. -/
def cfgAllowListA : SecurityConfig :=
  { CORSOrigins := ["https://a.com", "https://b.com"], EnableSecurityHeaders := true,
    RateLimit := 0 }

/-- Middleware over `cfgAllowListA`. -/
def smCORS : SecurityMiddleware :=
  { config := cfgAllowListA, rateLimiters := [] }

/-- A request carrying Origin `https://a.com`. -/
def reqOriginA : Request :=
  { method := "GET", headers := [("Origin", "https://a.com")], remoteAddr := "", path := "/mcp" }

/-- A request carrying the non-allow-listed Origin `https://c.com`. -/
def reqOriginC : Request :=
  { method := "GET", headers := [("Origin", "https://c.com")], remoteAddr := "", path := "/mcp" }

/-- C3: applyCORS behaves by exactly three cases: empty allow-list ⇒
Allow-Origin is the wildcard whatever the Origin; some entry equals the
wildcard token or the Origin verbatim ⇒ Allow-Origin echoes the Origin
value; no entry matches ⇒ the Allow-Origin header is left unset, and
the request still proceeds to the downstream handler. -/
theorem C3_applyCORS_three_cases (cfg : SecurityConfig) (w : Response) (r : Request) :
    (cfg.CORSOrigins = [] →
      headerLookup (applyCORS cfg w r).headers "Access-Control-Allow-Origin" = some "*") ∧
    (cfg.CORSOrigins ≠ [] →
      (∃ a ∈ cfg.CORSOrigins, a = "*" ∨ a = headerGet r.headers "Origin") →
      headerLookup (applyCORS cfg w r).headers "Access-Control-Allow-Origin" =
        some (headerGet r.headers "Origin")) ∧
    (cfg.CORSOrigins ≠ [] →
      (¬ ∃ a ∈ cfg.CORSOrigins, a = "*" ∨ a = headerGet r.headers "Origin") →
      headerLookup (applyCORS cfg w r).headers "Access-Control-Allow-Origin" =
        headerLookup w.headers "Access-Control-Allow-Origin") ∧
    (∀ (sm : SecurityMiddleware) (next : Request → Response → Response) (now : ℚ) (ts : String),
      (checkRateLimit sm r now freshResponse ts).1 = true → r.method ≠ "OPTIONS" →
      (Handler sm next r now ts).2.1 = true) := by
  refine ⟨?_, ?_, ?_, ?_⟩
  · intro h1
    simp only [applyCORS, h1, if_true]
    rw [lookup_setHeader_ne _ _ _ _ (by decide), lookup_setHeader_ne _ _ _ _ (by decide),
      lookup_setHeader_ne _ _ _ _ (by decide), lookup_setHeader_ne _ _ _ _ (by decide),
      lookup_setHeader_self]
  · intro h1 hex
    have h2 : corsOriginAllowed cfg.CORSOrigins (headerGet r.headers "Origin") = true :=
      (corsOriginAllowed_iff _ _).mpr hex
    simp only [applyCORS, h1, if_false, h2, if_true]
    rw [lookup_setHeader_ne _ _ _ _ (by decide), lookup_setHeader_ne _ _ _ _ (by decide),
      lookup_setHeader_ne _ _ _ _ (by decide), lookup_setHeader_ne _ _ _ _ (by decide),
      lookup_setHeader_self]
  · intro h1 hnex
    have h2 : ¬ (corsOriginAllowed cfg.CORSOrigins (headerGet r.headers "Origin") = true) :=
      fun hb => hnex ((corsOriginAllowed_iff _ _).mp hb)
    simp only [applyCORS, h1, if_false, if_neg h2]
    rw [lookup_setHeader_ne _ _ _ _ (by decide), lookup_setHeader_ne _ _ _ _ (by decide),
      lookup_setHeader_ne _ _ _ _ (by decide), lookup_setHeader_ne _ _ _ _ (by decide)]
  · intro sm next now ts hpass hm
    rcases hE : checkRateLimit sm r now freshResponse ts with ⟨b, smx, wx⟩
    cases b with
    | false => rw [hE] at hpass; simp at hpass
    | true => simp [Handler, hE, hm]

/-- Witness for C3 at concrete inputs: empty allow-list echoes the
wildcard; `https://a.com` is echoed when allow-listed; `https://c.com`
leaves the header unset yet the request reaches the downstream
handler. -/
theorem C3_applyCORS_three_cases_witness :
    headerLookup (applyCORS smRPM60.config freshResponse reqA).headers
      "Access-Control-Allow-Origin" = some "*" ∧
    headerLookup (applyCORS cfgAllowListA freshResponse reqOriginA).headers
      "Access-Control-Allow-Origin" = some (headerGet reqOriginA.headers "Origin") ∧
    headerLookup (applyCORS cfgAllowListA freshResponse reqOriginC).headers
      "Access-Control-Allow-Origin" =
      headerLookup freshResponse.headers "Access-Control-Allow-Origin" ∧
    (Handler smCORS okNext reqOriginC 5 "ts").2.1 = true :=
  ⟨(C3_applyCORS_three_cases smRPM60.config freshResponse reqA).1 rfl,
   (C3_applyCORS_three_cases cfgAllowListA freshResponse reqOriginA).2.1
     (by decide) (by decide),
   (C3_applyCORS_three_cases cfgAllowListA freshResponse reqOriginC).2.2.1
     (by decide) (by decide),
   (C3_applyCORS_three_cases cfgAllowListA freshResponse reqOriginC).2.2.2
     smCORS okNext 5 "ts" (by simp [checkRateLimit, smCORS, cfgAllowListA]) (by decide)⟩

/-- C4 (counterexample): an OPTIONS request that is throttled receives
status 429, not 200 — the rate-limit stage runs before the preflight
short-circuit, so the claimed "status 200 regardless of the rate-limit
outcome" fails on the second immediate preflight from one identity. -/
theorem C4_throttled_preflight_counterexample :
    reqOptA.method = "OPTIONS" ∧
    (Handler (Handler smRPM60 okNext reqOptA 5 "ts").2.2 okNext reqOptA 5 "ts").1.status =
      some 429 ∧
    ¬ (Handler (Handler smRPM60 okNext reqOptA 5 "ts").2.2 okNext reqOptA 5 "ts").1.status =
      some 200 := by
  have hz60 : ¬ smRPM60.config.RateLimit = 0 := by decide
  have hst := Handler_first_state smRPM60 okNext reqOptA 5 "ts" hz60 rfl
  have hf : (checkRateLimit (Handler smRPM60 okNext reqOptA 5 "ts").2.2
      reqOptA 5 freshResponse "ts").1 = false := by
    rw [hst]
    exact checkRateLimit_spent_false _ reqOptA 5 "ts" _ hz60 rfl
  have hthr := Handler_throttled (Handler smRPM60 okNext reqOptA 5 "ts").2.2
    okNext reqOptA 5 "ts" hf
  refine ⟨rfl, hthr.1, ?_⟩
  rw [hthr.1]
  decide

/-- C4 (amended): every OPTIONS request leaves the downstream handler
uninvoked; if it passes the rate-limit check it is answered 200
regardless of the CORS match outcome, and if it is throttled it is
answered 429. -/
theorem C4_options_short_circuit
    (sm : SecurityMiddleware) (next : Request → Response → Response)
    (r : Request) (now : ℚ) (ts : String) (hm : r.method = "OPTIONS") :
    (Handler sm next r now ts).2.1 = false ∧
    ((checkRateLimit sm r now freshResponse ts).1 = true →
      (Handler sm next r now ts).1.status = some 200) ∧
    ((checkRateLimit sm r now freshResponse ts).1 = false →
      (Handler sm next r now ts).1.status = some 429) := by
  rcases hE : checkRateLimit sm r now freshResponse ts with ⟨b, smx, wx⟩
  cases b with
  | false =>
    have hst := checkRateLimit_false_status sm r now ts (by rw [hE])
    rw [hE] at hst
    refine ⟨by simp [Handler, hE], ?_, ?_⟩
    · intro hpass
      simp at hpass
    · intro _
      simpa [Handler, hE] using hst
  | true =>
    have hw := checkRateLimit_true_resp sm r now freshResponse ts (by rw [hE])
    rw [hE] at hw
    have hw' : wx = freshResponse := by
      simpa using hw
    subst hw'
    refine ⟨by simp [Handler, hE, hm], ?_, ?_⟩
    · intro _
      cases hb : smx.config.EnableSecurityHeaders <;>
        simp [Handler, hE, hm, Response.writeHeader, hb,
          status_applySecurityHeaders, status_applyCORS, status_freshResponse]
    · intro hfail
      simp at hfail

/-- Witness for C4's amended theorem: the first preflight from a fresh
identity is answered 200 without invoking the downstream handler. -/
theorem C4_options_short_circuit_witness :
    (Handler smRPM60 okNext reqOptA 5 "ts").2.1 = false ∧
    (Handler smRPM60 okNext reqOptA 5 "ts").1.status = some 200 := by
  have hz60 : ¬ smRPM60.config.RateLimit = 0 := by decide
  have h := C4_options_short_circuit smRPM60 okNext reqOptA 5 "ts" rfl
  exact ⟨h.1,
    h.2.1 (checkRateLimit_fresh_then_throttle smRPM60 reqOptA 5 "ts" hz60 rfl).1⟩


/-- Lookup of a key other than the five CORS keys is unchanged by
`applyCORS`. -/
theorem lookup_applyCORS_other (cfg : SecurityConfig) (w : Response) (r : Request)
    (k : String)
    (h1 : k ≠ "Access-Control-Allow-Origin") (h2 : k ≠ "Access-Control-Allow-Methods")
    (h3 : k ≠ "Access-Control-Allow-Headers") (h4 : k ≠ "Access-Control-Allow-Credentials")
    (h5 : k ≠ "Access-Control-Max-Age") :
    headerLookup (applyCORS cfg w r).headers k = headerLookup w.headers k := by
  by_cases hA : cfg.CORSOrigins = []
  · simp only [applyCORS, hA, if_true]
    rw [lookup_setHeader_ne _ _ _ _ h5, lookup_setHeader_ne _ _ _ _ h4,
      lookup_setHeader_ne _ _ _ _ h3, lookup_setHeader_ne _ _ _ _ h2,
      lookup_setHeader_ne _ _ _ _ h1]
  · by_cases hB : corsOriginAllowed cfg.CORSOrigins (headerGet r.headers "Origin") = true
    · simp only [applyCORS, hA, if_false, hB, if_true]
      rw [lookup_setHeader_ne _ _ _ _ h5, lookup_setHeader_ne _ _ _ _ h4,
        lookup_setHeader_ne _ _ _ _ h3, lookup_setHeader_ne _ _ _ _ h2,
        lookup_setHeader_ne _ _ _ _ h1]
    · simp only [applyCORS, hA, if_false, if_neg hB]
      rw [lookup_setHeader_ne _ _ _ _ h5, lookup_setHeader_ne _ _ _ _ h4,
        lookup_setHeader_ne _ _ _ _ h3, lookup_setHeader_ne _ _ _ _ h2]

/-- The five fixed values after `applySecurityHeaders`. -/
theorem lookup_applySecurityHeaders (w : Response) :
    headerLookup (applySecurityHeaders w).headers "X-Content-Type-Options" = some "nosniff" ∧
    headerLookup (applySecurityHeaders w).headers "X-Frame-Options" = some "DENY" ∧
    headerLookup (applySecurityHeaders w).headers "X-XSS-Protection" = some "1; mode=block" ∧
    headerLookup (applySecurityHeaders w).headers "Referrer-Policy" =
      some "strict-origin-when-cross-origin" ∧
    headerLookup (applySecurityHeaders w).headers "Content-Security-Policy" =
      some "default-src \x27self\x27; script-src \x27self\x27; style-src \x27self\x27 \x27unsafe-inline\x27" := by
  unfold applySecurityHeaders
  refine ⟨?_, ?_, ?_, ?_, ?_⟩ <;>
    (repeat (first
      | rw [lookup_setHeader_self]
      | rw [lookup_setHeader_ne _ _ _ _ (by decide)]))

/-- Headers of the middleware response, for an admitted request served
by `okNext`: exactly the headers accumulated before the short-circuit
or downstream call. -/
theorem Handler_headers_of_admitted
    (sm : SecurityMiddleware) (r : Request) (now : ℚ) (ts : String)
    (hpass : (checkRateLimit sm r now freshResponse ts).1 = true) :
    (Handler sm okNext r now ts).1.headers =
      (if (checkRateLimit sm r now freshResponse ts).2.1.config.EnableSecurityHeaders = true
        then applySecurityHeaders
          (applyCORS (checkRateLimit sm r now freshResponse ts).2.1.config freshResponse r)
        else applyCORS (checkRateLimit sm r now freshResponse ts).2.1.config
          freshResponse r).headers := by
  have hw := checkRateLimit_true_resp sm r now freshResponse ts hpass
  rcases hE : checkRateLimit sm r now freshResponse ts with ⟨b, smx, wx⟩
  rw [hE] at hpass hw
  cases b with
  | false => simp at hpass
  | true =>
    have hw' : wx = freshResponse := by
      simpa using hw
    subst hw'
    by_cases hm : r.method = "OPTIONS" <;>
      simp [Handler, hE, hm, okNext, headers_writeHeader]


/-- Middleware with the security-headers flag off and rate limiting
disabled. -/
def smOff : SecurityMiddleware :=
  { config := { CORSOrigins := [], EnableSecurityHeaders := false, RateLimit := 0 }
    rateLimiters := [] }

/-- C8: flag off ⇒ none of the five fixed security headers appear in a
non-throttled middleware response; flag on ⇒ all five appear with
exactly the fixed values. -/
theorem C8_security_headers_toggle
    (sm : SecurityMiddleware) (r : Request) (now : ℚ) (ts : String)
    (hpass : (checkRateLimit sm r now freshResponse ts).1 = true) :
    (sm.config.EnableSecurityHeaders = false →
      headerLookup (Handler sm okNext r now ts).1.headers "X-Content-Type-Options" = none ∧
      headerLookup (Handler sm okNext r now ts).1.headers "X-Frame-Options" = none ∧
      headerLookup (Handler sm okNext r now ts).1.headers "X-XSS-Protection" = none ∧
      headerLookup (Handler sm okNext r now ts).1.headers "Referrer-Policy" = none ∧
      headerLookup (Handler sm okNext r now ts).1.headers "Content-Security-Policy" = none) ∧
    (sm.config.EnableSecurityHeaders = true →
      headerLookup (Handler sm okNext r now ts).1.headers "X-Content-Type-Options" =
        some "nosniff" ∧
      headerLookup (Handler sm okNext r now ts).1.headers "X-Frame-Options" = some "DENY" ∧
      headerLookup (Handler sm okNext r now ts).1.headers "X-XSS-Protection" =
        some "1; mode=block" ∧
      headerLookup (Handler sm okNext r now ts).1.headers "Referrer-Policy" =
        some "strict-origin-when-cross-origin" ∧
      headerLookup (Handler sm okNext r now ts).1.headers "Content-Security-Policy" =
        some "default-src \x27self\x27; script-src \x27self\x27; style-src \x27self\x27 \x27unsafe-inline\x27") := by
  have hcfg := checkRateLimit_config sm r now freshResponse ts
  have hhd := Handler_headers_of_admitted sm r now ts hpass
  rw [hcfg] at hhd
  constructor
  · intro hflag
    rw [hflag] at hhd
    simp only [Bool.false_eq_true, if_false] at hhd
    refine ⟨?_, ?_, ?_, ?_, ?_⟩ <;>
      (rw [hhd, lookup_applyCORS_other _ _ _ _ (by decide) (by decide) (by decide)
        (by decide) (by decide)]
       rfl)
  · intro hflag
    rw [hflag] at hhd
    simp only [if_true] at hhd
    have h5 := lookup_applySecurityHeaders (applyCORS sm.config freshResponse r)
    exact ⟨by rw [hhd]; exact h5.1, by rw [hhd]; exact h5.2.1, by rw [hhd]; exact h5.2.2.1,
      by rw [hhd]; exact h5.2.2.2.1, by rw [hhd]; exact h5.2.2.2.2⟩

/-- Witness for C8: with the flag off none of the five headers is
present; with the flag on all five carry their fixed values. -/
theorem C8_security_headers_toggle_witness :
    (headerLookup (Handler smOff okNext reqA 5 "ts").1.headers "X-Content-Type-Options" = none ∧
     headerLookup (Handler smOff okNext reqA 5 "ts").1.headers "X-Frame-Options" = none ∧
     headerLookup (Handler smOff okNext reqA 5 "ts").1.headers "X-XSS-Protection" = none ∧
     headerLookup (Handler smOff okNext reqA 5 "ts").1.headers "Referrer-Policy" = none ∧
     headerLookup (Handler smOff okNext reqA 5 "ts").1.headers "Content-Security-Policy" = none) ∧
    (headerLookup (Handler smDisabled okNext reqA 5 "ts").1.headers "X-Content-Type-Options" =
       some "nosniff" ∧
     headerLookup (Handler smDisabled okNext reqA 5 "ts").1.headers "X-Frame-Options" =
       some "DENY" ∧
     headerLookup (Handler smDisabled okNext reqA 5 "ts").1.headers "X-XSS-Protection" =
       some "1; mode=block" ∧
     headerLookup (Handler smDisabled okNext reqA 5 "ts").1.headers "Referrer-Policy" =
       some "strict-origin-when-cross-origin" ∧
     headerLookup (Handler smDisabled okNext reqA 5 "ts").1.headers "Content-Security-Policy" =
       some "default-src \x27self\x27; script-src \x27self\x27; style-src \x27self\x27 \x27unsafe-inline\x27") :=
  ⟨(C8_security_headers_toggle smOff reqA 5 "ts" (by decide)).1 rfl,
   (C8_security_headers_toggle smDisabled reqA 5 "ts" (by decide)).2 rfl⟩


/-- A health checker whose provider reference is nil. -/
def hNil : HealthChecker := { provider := none, startTime := 0 }

/-- A fully operational provider. -/
def provOK : ApiProvider :=
  { ready := true, isReadyErr := false, slackIsNil := false, authTestErr := false }

/-- A provider whose Slack client is nil. -/
def provSlackNil : ApiProvider :=
  { ready := true, isReadyErr := false, slackIsNil := true, authTestErr := false }

/-- Health checker over the operational provider. -/
def hOK : HealthChecker := { provider := some provOK, startTime := 0 }

/-- Health checker over the provider with a nil Slack client. -/
def hSlackNil : HealthChecker := { provider := some provSlackNil, startTime := 0 }

/-- No token environment variables set. -/
def envNone : Env := { xoxpToken := "", xoxcToken := "", xoxdToken := "" }

/-- C5: every document `performHealthChecks` produces has Status
healthy iff every entry of its checks map is ok; the liveness document
always contains exactly the single "application"=ok entry. -/
theorem C5_healthy_iff_all_ok :
    (∀ (h : HealthChecker) (env : Env) (ir : Bool) (now : ℚ),
      ((performHealthChecks h env ir now).status = HealthStatus.healthy ↔
        ∀ p ∈ (performHealthChecks h env ir now).checks, p.2 = CheckStatus.ok)) ∧
    (∀ (h : HealthChecker) (now : ℚ),
      (livenessResponse h now).checks = [("application", CheckStatus.ok)]) := by
  constructor
  · intro h env ir now
    rcases hc : checkCacheSystem h with _ | _ <;>
      rcases hs : checkSlackAPI h env with _ | _ <;>
        cases ir <;> simp [performHealthChecks, hc, hs]
  · intro h now
    rfl

/-- Witness for C5: the operational provider's readiness document is
healthy because both its checks are ok. -/
theorem C5_healthy_iff_all_ok_witness :
    (performHealthChecks hOK envNone true 5).status = HealthStatus.healthy :=
  (C5_healthy_iff_all_ok.1 hOK envNone true 5).mpr (by decide)

/-- Healthy document fixture. -/
def docHealthy : HealthResponse :=
  { status := HealthStatus.healthy, timestamp := 5, version := versionVersion
    checks := [("cache", CheckStatus.ok)], uptime := none, details := [] }

/-- Unhealthy document fixture. -/
def docUnhealthy : HealthResponse :=
  { status := HealthStatus.unhealthy, timestamp := 5, version := versionVersion
    checks := [("cache", CheckStatus.error)], uptime := none, details := [] }

/-- C6: `writeHealthResponse` sends 200 for a healthy document and 503
for an unhealthy one; but when serialization fails, the response
status is NOT 500 — `WriteHeader` has already been called with 200/503
before encoding, so the `http.Error(..., 500)` is a superfluous
write-header that `net/http` ignores; only the plain-text body is
emitted. -/
theorem C6_encode_failure_not_500 :
    (writeHealthResponse docHealthy (some "x") freshResponse).status = some 200 ∧
    (writeHealthResponse docUnhealthy (some "x") freshResponse).status = some 503 ∧
    (writeHealthResponse docHealthy none freshResponse).status = some 200 ∧
    ¬ (writeHealthResponse docHealthy none freshResponse).status = some 500 ∧
    (writeHealthResponse docHealthy none freshResponse).body =
      ["Internal server error\n"] := by
  refine ⟨rfl, rfl, rfl, by decide, rfl⟩

/-- C7: the liveness handler always answers 200 with a healthy
document holding exactly the "application"=ok check and a strictly
positive uptime, and it reads nothing from the provider (two checkers
sharing a start time produce identical documents). -/
theorem C7_liveness_properties (h : HealthChecker) (now : ℚ) (s : String)
    (hns : h.startTime < now) :
    (LivenessHandler h now (some s) freshResponse).status = some 200 ∧
    (livenessResponse h now).status = HealthStatus.healthy ∧
    (livenessResponse h now).checks = [("application", CheckStatus.ok)] ∧
    (livenessResponse h now).uptime = some (now - h.startTime) ∧
    0 < now - h.startTime ∧
    (∀ h₂ : HealthChecker, h₂.startTime = h.startTime →
      livenessResponse h₂ now = livenessResponse h now) := by
  refine ⟨?_, rfl, rfl, rfl, by linarith, ?_⟩
  · simp [LivenessHandler, writeHealthResponse, livenessResponse,
      Response.writeHeader, Response.setHeader, Response.write, freshResponse]
  · intro h₂ hst
    simp [livenessResponse, hst]

/-- Witness for C7 at the nil-provider checker: even with no provider
the liveness handler answers 200 and reports uptime 5 - 0. -/
theorem C7_liveness_properties_witness :
    (LivenessHandler hNil 5 (some "x") freshResponse).status = some 200 ∧
    (livenessResponse hNil 5).status = HealthStatus.healthy ∧
    (livenessResponse hNil 5).checks = [("application", CheckStatus.ok)] ∧
    (livenessResponse hNil 5).uptime = some (5 - hNil.startTime) ∧
    0 < (5 : ℚ) - hNil.startTime := by
  have h := C7_liveness_properties hNil 5 "x" (by norm_num [hNil])
  exact ⟨h.1, h.2.1, h.2.2.1, h.2.2.2.1, h.2.2.2.2.1⟩

/-- C9 (counterexample): the basic `/health` document DOES carry an
uptime value — `performHealthChecks` sets the uptime pointer
unconditionally, for the non-readiness variant too. -/
theorem C9_basic_health_carries_uptime :
    (performHealthChecks hOK envNone false 5).uptime = some (5 - hOK.startTime) ∧
    ¬ (performHealthChecks hOK envNone false 5).uptime = none := by
  refine ⟨rfl, by decide⟩

/-- C9 (amended): the uptime field is present in all three rendered
document variants — basic health, readiness and liveness alike. -/
theorem C9_uptime_all_variants (h : HealthChecker) (env : Env) (now : ℚ) :
    (performHealthChecks h env false now).uptime = some (now - h.startTime) ∧
    (performHealthChecks h env true now).uptime = some (now - h.startTime) ∧
    (livenessResponse h now).uptime = some (now - h.startTime) :=
  ⟨rfl, rfl, rfl⟩

/-- C10: a nil provider reference makes every dependent check report
"error" in the checks map, and a nil Slack client makes the Slack API
check report "error"; all paths are total functions of the state, so
no invocation can panic. -/
theorem C10_nil_provider_defensive (h : HealthChecker) (env : Env) (now : ℚ) :
    (h.provider = none →
      checkCacheSystem h = CheckStatus.error ∧
      checkSlackAPI h env = CheckStatus.error ∧
      (performHealthChecks h env false now).checks = [("cache", CheckStatus.error)] ∧
      (performHealthChecks h env true now).checks =
        [("cache", CheckStatus.error), ("slack_api", CheckStatus.error)]) ∧
    (∀ p : ApiProvider, h.provider = some p → p.slackIsNil = true →
      checkSlackAPI h env = CheckStatus.error) := by
  constructor
  · intro hp
    have hc : checkCacheSystem h = CheckStatus.error := by
      simp [checkCacheSystem, hp]
    have hs : checkSlackAPI h env = CheckStatus.error := by
      simp [checkSlackAPI, hp]
    exact ⟨hc, hs, by simp [performHealthChecks, hc, hs],
      by simp [performHealthChecks, hc, hs]⟩
  · intro p hp hnil
    simp [checkSlackAPI, hp, hnil]

/-- Witness for C10: the nil-provider checker reports "error" for both
checks of the readiness document, and the nil-Slack-client provider
fails the Slack API check. -/
theorem C10_nil_provider_defensive_witness :
    checkCacheSystem hNil = CheckStatus.error ∧
    checkSlackAPI hNil envNone = CheckStatus.error ∧
    (performHealthChecks hNil envNone true 5).checks =
      [("cache", CheckStatus.error), ("slack_api", CheckStatus.error)] ∧
    checkSlackAPI hSlackNil envNone = CheckStatus.error := by
  have h := (C10_nil_provider_defensive hNil envNone 5).1 rfl
  exact ⟨h.1, h.2.1, h.2.2.2,
    (C10_nil_provider_defensive hSlackNil envNone 5).2 provSlackNil rfl rfl⟩

end SlackMCP
